import Mathlib

/-!
Verification development for the brooktool supervisor
(src/app/brooktool/main.go). The Go program is shallowly embedded:
pure decisions become Lean functions, the mutex-guarded state machines
become explicit step functions over traces of atomic operations (each
critical section under a sync.Mutex is one atomic step), and external
effects (command start errors, captured output, file reads) are inputs.
Byte blobs are modelled as List Nat, strings as String.
-/

namespace Brooktool

/-- Name of the brook binary searched for on disk (non-Windows branch of
the package variable brookBinFile). -/
def brookBinFile : String := "brook"

/-! ## enableSystemProxy (main.go lines 110-123)

The Go function starts the external toggle command with a shared
stdout/stderr buffer. A non-nil Start error is returned as-is; otherwise
if the buffer is non-empty its contents become the error message
(errors.New(out.String())); otherwise nil. We model the OS-level start
result as an Option String (some = start error) and the captured
combined output as a String. -/

/-- Embedding of enableSystemProxy: given the OS-level start outcome and
the combined stdout+stderr contents observed after Start, return the
error (some message) or success (none). -/
def enableSystemProxy (startErr : Option String) (output : String) : Option String :=
  match startErr with
  | some e => some e
  | none => if output.length ≠ 0 then some output else none

/-! ## pacHandler.ServeHTTP (main.go lines 83-97)

The handler matches on strings.HasPrefix(r.RequestURI, "/pac"); on a
match it snapshots pacData under the mutex and writes it (net/http then
sends an implicit 200); otherwise it writes header 404 and no body.
The handler never assigns pacData. -/

/-- State of the pacHandler: the stored PAC blob (pacData). The sync.Mutex
serialises accesses; each access is one atomic step here. -/
structure PacHandler where
  pacData : List Nat
deriving DecidableEq

/-- An HTTP response as observed by the client: status code and body bytes. -/
structure HTTPResponse where
  status : Nat
  body : List Nat
deriving DecidableEq

/-- Embedding of strings.HasPrefix over the character sequences of the
two Go strings: true when the first list is an initial segment of the
second. -/
def strStartsWith : List Char → List Char → Bool
  | [], _ => true
  | _ :: _, [] => false
  | p :: ps, c :: cs => p == c && strStartsWith ps cs

/-- Embedding of pacHandler.ServeHTTP: dispatch on the request URI and
return the response together with the (unchanged) handler state. -/
def serveHTTP (h : PacHandler) (requestURI : String) : HTTPResponse × PacHandler :=
  if strStartsWith "/pac".data requestURI.data then
    ({ status := 200, body := h.pacData }, h)
  else
    ({ status := 404, body := [] }, h)

/-! ## Startup PAC download (main.go lines 160-181)

After http.Get succeeds, the body is read: on a read error OR a
zero-length body the program calls log.Fatalf (terminating) before
ioutil.WriteFile; otherwise the bytes are written to the cache path. -/

/-- Outcome of the download step: fatal termination before write, or the
cache file written with the downloaded bytes. -/
inductive DownloadOutcome where
  | fatal
  | writeCache (data : List Nat)
deriving DecidableEq

/-- Embedding of the download branch of main: readErr is the error from
ioutil.ReadAll, data its returned bytes. The Go condition is
(nil != err || 0 == len(data)) leading to log.Fatalf before WriteFile. -/
def downloadPac (readErr : Option String) (data : List Nat) : DownloadOutcome :=
  if readErr.isSome ∨ data.length = 0 then .fatal else .writeCache data

/-! ## searchExecutableFile (main.go lines 49-70)

Depth-first search over a directory tree: ioutil.ReadDir can fail (the
readErr field of a dir node); entries are visited in order; a dir entry
is recursed into, an error from the recursion aborts everything with
("", err), a non-empty path is returned; a file entry matching
brookBinFile yields its joined path; exhaustion yields ("", nil). -/

/-- A filesystem entry as the traversal sees it: a plain file with a
name, or a directory whose ReadDir either fails (readErr = some e; the
contents are then never observed) or yields the listed contents. -/
inductive FSEntry where
  | file (name : String)
  | dir (name : String) (readErr : Option String) (contents : List FSEntry)

/-- The loop body of searchExecutableFile over the entries of one
directory, faithful to the Go iteration order and early returns. -/
def searchEntries (dirPath : String) : List FSEntry → String × Option String
  | [] => ("", none)
  | FSEntry.file name :: rest =>
      if name = brookBinFile then (dirPath ++ "/" ++ name, none)
      else searchEntries dirPath rest
  | FSEntry.dir name readErr contents :: rest =>
      match readErr with
      | some e => ("", some e)
      | none =>
        match searchEntries (dirPath ++ "/" ++ name) contents with
        | (_, some e) => ("", some e)
        | (path, none) =>
            if path ≠ "" then (path, none) else searchEntries dirPath rest

/-- Embedding of searchExecutableFile at the root: readErr is the result
of ioutil.ReadDir(dir) failing, entries its listing on success. -/
def searchExecutableFile (dirPath : String) (readErr : Option String)
    (entries : List FSEntry) : String × Option String :=
  match readErr with
  | some e => ("", some e)
  | none => searchEntries dirPath entries

mutual

/-- An entry subtree in which every directory read succeeds and no file
anywhere is named brookBinFile. -/
def entryOkNoMatch : FSEntry → Bool
  | FSEntry.file name => name ≠ brookBinFile
  | FSEntry.dir _ readErr contents => readErr.isNone && entriesOkNoMatch contents

/-- All entries of a listing satisfy entryOkNoMatch. -/
def entriesOkNoMatch : List FSEntry → Bool
  | [] => true
  | e :: rest => entryOkNoMatch e && entriesOkNoMatch rest

end

/-! ## The brook child goroutine (main.go lines 271-288)

The goroutine builds the client command, calls Start, and on a non-nil
startErr executes the statement brookCh <- err — note: err, the outer
variable of main, NOT startErr. At the moment this goroutine can run,
the last assignment to the outer err was from fsnotify.NewWatcher()
(the earlier branches that can assign it either shadow it or lead to
log.Fatalf), so it is nil. On a nil startErr it sends the result of
brookCmd.Wait(). We model the channel traffic as the list of values
sent on brookCh, in order. -/

/-- Embedding of the brook child goroutine: outerErr is the value of
the outer err variable captured by the closure, startErr the result of
brookCmd.Start(), waitResult the result of brookCmd.Wait() (none for a
clean exit). The returned list holds the values sent on brookCh. -/
def brookChSends (outerErr : Option String) (startErr : Option String)
    (waitResult : Option String) : List (Option String) :=
  match startErr with
  | some _ => [outerErr]
  | none => [waitResult]

/-! ## Debounce in the watch goroutine (main.go lines 228-267)

On a write event the goroutine sleeps 100ms, then performs ONE
non-blocking receive (a select with a default case) to discard a queued
event, then runs one reload-and-reapply cycle, then loops back to the
outer select. For a burst of N write events all arriving within the
quiescence interval, each cycle consumes the triggering event plus at
most one drained event. debounceReloads computes how many
reload-and-reapply cycles such a burst of N queued write events
produces (gate open, reload succeeding). -/

/-- Number of reload-and-reapply cycles the watch goroutine performs for
a burst of n write events arriving within the debounce interval: each
iteration receives one event, drains at most one more, reloads once. -/
def debounceReloads : Nat → Nat
  | 0 => 0
  | 1 => 1
  | n + 2 => 1 + debounceReloads n

/-! ## ShutdownGate and reload cycles (main.go lines 241-256 and 307-309)

The closed flag is guarded by closeMu. The watch goroutine holds the
lock across the whole check-then-reload-then-reapply sequence; main
holds it to set closed = true. Each critical section is therefore one
atomic step on the shared state. A reload cycle that observes closed
returns with no side effects; one whose file read fails changes nothing
and does not reapply; otherwise it replaces pacData and invokes
enableSystemProxy (counted in reapplyCount). -/

/-- Shared state touched under closeMu: the closed flag, the stored PAC
blob, and a count of reapply (enableSystemProxy) invocations. -/
structure GateState where
  closed : Bool
  pacData : List Nat
  reapplyCount : Nat
deriving DecidableEq

/-- One atomic critical section under closeMu: main marking the gate
closed, or the watch goroutine running one reload cycle whose file read
yielded readResult (none = read failed). -/
inductive GateOp where
  | closeGate
  | reloadCycle (readResult : Option (List Nat))
deriving DecidableEq

/-- Effect of one atomic critical section on the shared state, from the
code of the watch goroutine and the teardown in main. -/
def gateStep (s : GateState) : GateOp → GateState
  | .closeGate => { s with closed := true }
  | .reloadCycle readResult =>
      if s.closed then s
      else
        match readResult with
        | none => s
        | some d => { s with pacData := d, reapplyCount := s.reapplyCount + 1 }

/-- Run a sequence of atomic critical sections. -/
def gateRun (s : GateState) : List GateOp → GateState
  | [] => s
  | op :: rest => gateRun (gateStep s op) rest

/-! ## The shutdown path of main (main.go lines 294-325)

main blocks on select { sigCh | brookCh }. The signal branch runs
cancel() then <-brookCh; the child-exit branch logs and runs cancel().
Both fall through to: closeMu.Lock; closed = true; Unlock; ls.Close();
then the disable-system-proxy command is started. We record the ordered
actions each branch performs. -/

/-- Which of the two wake conditions fired in the select of main. -/
inductive WakeReason where
  | signal
  | childExit
deriving DecidableEq

/-- The observable shutdown actions of main, in program order. -/
inductive ShutdownAction where
  | cancelContext
  | waitChildExit
  | markGateClosed
  | closeListener
  | disableProxyCmd
deriving DecidableEq

/-- Embedding of the tail of main: the ordered actions performed after
the select wakes for the given reason. -/
def shutdownSequence : WakeReason → List ShutdownAction
  | .signal =>
      [.cancelContext, .waitChildExit, .markGateClosed, .closeListener, .disableProxyCmd]
  | .childExit =>
      [.cancelContext, .markGateClosed, .closeListener, .disableProxyCmd]

/-! ## Startup order in main (main.go lines 196-214)

After the initial reload succeeds, main starts the HTTP server
goroutine, THEN calls enableSystemProxy; if that returns an error it
calls log.Fatalf and returns, so the watcher creation, the watch
goroutine and the brook child goroutine never start. We record the
startup events in program order. -/

/-- Startup events of main from the successful listen onward. -/
inductive StartupEvent where
  | listenBound
  | initialReload
  | startServerGoroutine
  | enableProxyCall
  | createWatcher
  | startWatcherGoroutine
  | startChildGoroutine
  | enterSelectLoop
deriving DecidableEq

/-- Embedding of the startup tail of main: the events emitted in program
order, given the result of the startup enableSystemProxy call (some =
error, main aborts via log.Fatalf). Watcher creation is assumed to
succeed in the non-aborting branch. -/
def mainStartup (enableErr : Option String) : List StartupEvent :=
  [.listenBound, .initialReload, .startServerGoroutine, .enableProxyCall] ++
    match enableErr with
    | some _ => []
    | none =>
        [.createWatcher, .startWatcherGoroutine, .startChildGoroutine, .enterSelectLoop]

/-! ## ConfigStore traces (main.go lines 83-108)

The pacData field is only ever read or wholly replaced while holding
h.mu: reload() assigns h.pacData = data under the lock, ServeHTTP reads
data := h.pacData under the lock. Every access is therefore one atomic
step, and any concurrent execution linearises to a sequence of these
steps. runStoreSnapshots runs such a sequence and collects the value
each snapshot (locked read) observes. -/

/-- An atomic access to pacData under h.mu: a wholesale replace (from
reload) or a snapshot read (from ServeHTTP). -/
inductive StoreOp where
  | replace (b : List Nat)
  | snapshot
deriving DecidableEq

/-- Run a linearised sequence of locked accesses starting from the blob
cur, returning the values observed by the snapshots, in order. -/
def runStoreSnapshots (cur : List Nat) : List StoreOp → List (List Nat)
  | [] => []
  | .replace b :: rest => runStoreSnapshots b rest
  | .snapshot :: rest => cur :: runStoreSnapshots cur rest

/-! ## Theorems -/

/-- C1: the claim fails on the code. Exactly one value is sent on
brookCh on every path, but when the OS-level start of the child fails
the goroutine executes brookCh <- err with the captured outer err —
which is nil at that point, since the last assignment to it was the
successful fsnotify.NewWatcher() — instead of the non-nil startErr it
just tested. The channel therefore delivers nil for a failed start. -/
theorem C1_startError_sends_stale_nil :
    brookChSends none (some "exec: file not found") none = [none] ∧
    brookChSends none (some "exec: file not found") none ≠
      [some "exec: file not found"] ∧
    (∀ outerErr startErr waitResult : Option String,
      (brookChSends outerErr startErr waitResult).length = 1) := by
  refine ⟨rfl, by decide, ?_⟩
  intro outerErr startErr waitResult
  cases startErr <;> rfl

/-- C4: both wake conditions run the converging teardown exactly once
and in order — the action list ends with mark-gate-closed, then
close-listener, then disable-proxy, each occurring exactly once — and
in the signal case the context is cancelled and the child exit awaited
before that sequence. -/
theorem C4_shutdown_ordered_once :
    (∀ r : WakeReason, ∃ p : List ShutdownAction,
        shutdownSequence r = p ++
          [ShutdownAction.markGateClosed, ShutdownAction.closeListener,
           ShutdownAction.disableProxyCmd] ∧
        (shutdownSequence r).count ShutdownAction.markGateClosed = 1 ∧
        (shutdownSequence r).count ShutdownAction.closeListener = 1 ∧
        (shutdownSequence r).count ShutdownAction.disableProxyCmd = 1) ∧
    shutdownSequence WakeReason.signal =
      [ShutdownAction.cancelContext, ShutdownAction.waitChildExit,
       ShutdownAction.markGateClosed, ShutdownAction.closeListener,
       ShutdownAction.disableProxyCmd] ∧
    shutdownSequence WakeReason.childExit =
      [ShutdownAction.cancelContext, ShutdownAction.markGateClosed,
       ShutdownAction.closeListener, ShutdownAction.disableProxyCmd] := by
  refine ⟨?_, rfl, rfl⟩
  intro r
  cases r with
  | signal =>
      exact ⟨[ShutdownAction.cancelContext, ShutdownAction.waitChildExit], by decide⟩
  | childExit =>
      exact ⟨[ShutdownAction.cancelContext], by decide⟩

/-- C5: enableSystemProxy errors exactly when the OS-level start failed
or the combined stdout+stderr output is non-empty; a silent launch
returns success, non-empty output becomes an error carrying exactly the
output string, and a start failure returns the start error itself. -/
theorem C5_enableSystemProxy_error_iff (startErr : Option String) (output : String) :
    ((enableSystemProxy startErr output).isSome ↔
        startErr.isSome = true ∨ output ≠ "") ∧
    (startErr = none → output = "" → enableSystemProxy startErr output = none) ∧
    (startErr = none → output ≠ "" →
        enableSystemProxy startErr output = some output) ∧
    (∀ e, startErr = some e → enableSystemProxy startErr output = some e) := by
  have hlen : output.length ≠ 0 ↔ output ≠ "" := by
    constructor
    · intro hne he
      subst he
      exact hne rfl
    · intro hne hl
      apply hne
      cases output with
      | mk data =>
          simp [String.length] at hl
          simp [hl]
  cases startErr with
  | some e => simp [enableSystemProxy]
  | none =>
      by_cases ho : output = ""
      · subst ho
        simp [enableSystemProxy]
      · simp [enableSystemProxy, hlen.mpr ho, ho]

/-- Witness for C5 at concrete inputs: silent launch, diagnostic output,
and OS-level start failure. -/
theorem C5_enableSystemProxy_error_iff_witness :
    enableSystemProxy none "" = none ∧
    enableSystemProxy none "boom" = some "boom" ∧
    enableSystemProxy (some "launch failed") "" = some "launch failed" :=
  ⟨(C5_enableSystemProxy_error_iff none "").2.1 rfl rfl,
   (C5_enableSystemProxy_error_iff none "boom").2.2.1 rfl (by decide),
   (C5_enableSystemProxy_error_iff (some "launch failed") "").2.2.2
     "launch failed" rfl⟩

/-- C6: a request whose URI starts with /pac (query parameters included)
is answered with status 200 and exactly the stored blob; any other URI
is answered with status 404 and an empty body; the stored blob is
unchanged either way. -/
theorem C6_serveHTTP_routes (h : PacHandler) (uri : String) :
    (strStartsWith "/pac".data uri.data = true →
        serveHTTP h uri = ({ status := 200, body := h.pacData }, h)) ∧
    (strStartsWith "/pac".data uri.data = false →
        serveHTTP h uri = ({ status := 404, body := [] }, h)) := by
  constructor <;> intro hp <;> simp [serveHTTP, hp]

/-- Witness for C6: a cache-busting /pac request returns the stored
bytes with 200; a different path gets 404 with an empty body. -/
theorem C6_serveHTTP_routes_witness :
    serveHTTP ⟨[1, 2, 3]⟩ "/pac?ts=1700000000" =
      ({ status := 200, body := [1, 2, 3] }, ⟨[1, 2, 3]⟩) ∧
    serveHTTP ⟨[1, 2, 3]⟩ "/favicon.ico" =
      ({ status := 404, body := [] }, ⟨[1, 2, 3]⟩) :=
  ⟨(C6_serveHTTP_routes ⟨[1, 2, 3]⟩ "/pac?ts=1700000000").1 (by decide),
   (C6_serveHTTP_routes ⟨[1, 2, 3]⟩ "/favicon.ico").2 (by decide)⟩

/-- C9: a download whose body read succeeds but yields zero bytes is
fatal before the cache file is written, exactly like a read error; only
a non-empty, error-free body is written to the cache. -/
theorem C9_downloadPac_empty_fatal (readErr : Option String) (data : List Nat) :
    (data = [] → downloadPac readErr data = DownloadOutcome.fatal) ∧
    (readErr.isSome = true → downloadPac readErr data = DownloadOutcome.fatal) ∧
    (readErr = none → data ≠ [] →
        downloadPac readErr data = DownloadOutcome.writeCache data) := by
  refine ⟨?_, ?_, ?_⟩
  · intro hd
    subst hd
    simp [downloadPac]
  · intro hr
    simp [downloadPac, hr]
  · intro hr hd
    subst hr
    simp [downloadPac, hd]

/-- Witness for C9: the empty successful download, a read error, and a
non-empty download at concrete inputs. -/
theorem C9_downloadPac_empty_fatal_witness :
    downloadPac none [] = DownloadOutcome.fatal ∧
    downloadPac (some "read error") [5] = DownloadOutcome.fatal ∧
    downloadPac none [5] = DownloadOutcome.writeCache [5] :=
  ⟨(C9_downloadPac_empty_fatal none []).1 rfl,
   (C9_downloadPac_empty_fatal (some "read error") [5]).2.1 rfl,
   (C9_downloadPac_empty_fatal none [5]).2.2 rfl (by decide)⟩

/-- C2 counterexample: a burst of three write events arriving within the
debounce interval produces two reload-and-reapply cycles, not exactly
one — the post-sleep drain is a single non-blocking receive and so
discards at most one queued event, leaving the third to trigger a
second cycle. -/
theorem C2_three_writes_two_reloads :
    debounceReloads 3 = 2 ∧ debounceReloads 3 ≠ 1 := by
  constructor <;> decide

/-- Helper for C2: closed form of the debounce cycle count. -/
theorem debounceReloads_closed_form (n : Nat) : debounceReloads n = (n + 1) / 2 := by
  induction n using Nat.strong_induction_on with
  | _ n ih =>
    match n with
    | 0 => rfl
    | 1 => rfl
    | n + 2 =>
        rw [debounceReloads, ih n (by omega)]
        omega

/-- C2 amended: a burst of n write events arriving within the debounce
quiescence interval produces ⌈n/2⌉ reload-and-reapply cycles, because
the post-sleep drain discards at most one queued event; the count is
exactly one only for bursts of one or two events. -/
theorem C2_debounce_halves_burst (n : Nat) :
    debounceReloads n = (n + 1) / 2 ∧
    (1 ≤ n → n ≤ 2 → debounceReloads n = 1) := by
  refine ⟨debounceReloads_closed_form n, ?_⟩
  intro h1 h2
  rw [debounceReloads_closed_form n]
  omega

/-- Witness for C2 amended at a two-event burst. -/
theorem C2_debounce_halves_burst_witness :
    debounceReloads 2 = (2 + 1) / 2 ∧ debounceReloads 2 = 1 :=
  ⟨(C2_debounce_halves_burst 2).1,
   (C2_debounce_halves_burst 2).2 (by decide) (by decide)⟩

/-- C3: from any state in which the gate is closed, no sequence of
further atomic critical sections — reload cycles included, whatever
file contents they read — changes the stored PAC blob or performs a
reapply invocation, and the gate stays closed. The check and the
reload-and-reapply body are one critical section under closeMu, which
is what makes each GateOp a single atomic step. -/
theorem C3_closed_gate_blocks_reload (s : GateState) (hs : s.closed = true)
    (ops : List GateOp) :
    (gateRun s ops).pacData = s.pacData ∧
    (gateRun s ops).reapplyCount = s.reapplyCount ∧
    (gateRun s ops).closed = true := by
  induction ops generalizing s with
  | nil => exact ⟨rfl, rfl, hs⟩
  | cons op rest ih =>
      cases op with
      | closeGate =>
          have hnext := ih { s with closed := true } rfl
          simpa [gateRun, gateStep] using hnext
      | reloadCycle rr =>
          have hstep : gateStep s (GateOp.reloadCycle rr) = s := by
            simp [gateStep, hs]
          rw [gateRun, hstep]
          exact ih s hs

/-- Witness for C3: a pending reload with fresh bytes after closure
leaves the blob and the reapply count untouched. -/
theorem C3_closed_gate_blocks_reload_witness :
    (gateRun ⟨true, [7], 0⟩
        [GateOp.reloadCycle (some [9]), GateOp.reloadCycle (some [4])]).pacData = [7] ∧
    (gateRun ⟨true, [7], 0⟩
        [GateOp.reloadCycle (some [9]), GateOp.reloadCycle (some [4])]).reapplyCount = 0 ∧
    (gateRun ⟨true, [7], 0⟩
        [GateOp.reloadCycle (some [9]), GateOp.reloadCycle (some [4])]).closed = true :=
  C3_closed_gate_blocks_reload ⟨true, [7], 0⟩ rfl
    [GateOp.reloadCycle (some [9]), GateOp.reloadCycle (some [4])]

/-- C7 counterexample: when the startup enable command starts but prints
a diagnostic, the call errors and main aborts — but the config-serving
listener goroutine has already been started before the enable call, so
the abort is not before every concurrent worker. -/
theorem C7_server_goroutine_already_started :
    (enableSystemProxy none "diagnostic").isSome = true ∧
    StartupEvent.startServerGoroutine ∈
      mainStartup (enableSystemProxy none "diagnostic") := by
  constructor <;> decide

/-- C7 amended: if the startup enableSystemProxy call returns an error
(for instance because the command started but produced output), main
aborts before the watcher creation, the file-watch goroutine and the
child goroutine — but after the config-serving listener goroutine was
started. -/
theorem C7_abort_before_watcher_and_child (startErr : Option String)
    (output : String) (h : (enableSystemProxy startErr output).isSome = true) :
    mainStartup (enableSystemProxy startErr output) =
      [StartupEvent.listenBound, StartupEvent.initialReload,
       StartupEvent.startServerGoroutine, StartupEvent.enableProxyCall] ∧
    StartupEvent.createWatcher ∉ mainStartup (enableSystemProxy startErr output) ∧
    StartupEvent.startWatcherGoroutine ∉
      mainStartup (enableSystemProxy startErr output) ∧
    StartupEvent.startChildGoroutine ∉
      mainStartup (enableSystemProxy startErr output) ∧
    StartupEvent.startServerGoroutine ∈
      mainStartup (enableSystemProxy startErr output) := by
  cases hx : enableSystemProxy startErr output with
  | none => rw [hx] at h; simp at h
  | some e => refine ⟨rfl, ?_, ?_, ?_, ?_⟩ <;> simp [mainStartup]

/-- Witness for C7 amended at the diagnostic-output input. -/
theorem C7_abort_before_watcher_and_child_witness :
    mainStartup (enableSystemProxy none "diagnostic") =
      [StartupEvent.listenBound, StartupEvent.initialReload,
       StartupEvent.startServerGoroutine, StartupEvent.enableProxyCall] ∧
    StartupEvent.createWatcher ∉ mainStartup (enableSystemProxy none "diagnostic") ∧
    StartupEvent.startWatcherGoroutine ∉
      mainStartup (enableSystemProxy none "diagnostic") ∧
    StartupEvent.startChildGoroutine ∉
      mainStartup (enableSystemProxy none "diagnostic") ∧
    StartupEvent.startServerGoroutine ∈
      mainStartup (enableSystemProxy none "diagnostic") :=
  C7_abort_before_watcher_and_child none "diagnostic" (by decide)

/-- C8: over any linearised sequence of locked accesses to pacData (the
mutex serialises them, so every concurrent execution is such a
sequence), each snapshot observes either the initial blob or the whole
argument of some replace in the sequence — never a torn value, since a
replace installs its argument wholesale in one atomic step. -/
theorem C8_snapshot_never_torn (init : List Nat) (ops : List StoreOp)
    (r : List Nat) (hr : r ∈ runStoreSnapshots init ops) :
    r = init ∨ ∃ b, StoreOp.replace b ∈ ops ∧ r = b := by
  induction ops generalizing init with
  | nil => simp [runStoreSnapshots] at hr
  | cons op rest ih =>
      cases op with
      | replace b =>
          rw [runStoreSnapshots] at hr
          rcases ih b hr with h | ⟨c, hc, hrc⟩
          · exact Or.inr ⟨b, by simp, h⟩
          · exact Or.inr ⟨c, by simp [hc], hrc⟩
      | snapshot =>
          rw [runStoreSnapshots] at hr
          rcases List.mem_cons.mp hr with h | h
          · exact Or.inl h
          · rcases ih init h with h2 | ⟨c, hc, hrc⟩
            · exact Or.inl h2
            · exact Or.inr ⟨c, by simp [hc], hrc⟩

/-- Witness for C8: in the trace replace [5]; snapshot, the snapshot
observes [5], the argument of the completed replace. -/
theorem C8_snapshot_never_torn_witness :
    [5] = [0] ∨ ∃ b, StoreOp.replace b ∈
      [StoreOp.replace [5], StoreOp.snapshot] ∧ [5] = b :=
  C8_snapshot_never_torn [0] [StoreOp.replace [5], StoreOp.snapshot] [5] (by decide)

/-- Helper for C10: a joined path dir + "/" + name is never the empty
string, so a successful match is distinguishable from "not found". -/
theorem joined_path_ne_empty (d n : String) : d ++ "/" ++ n ≠ "" := by
  intro h
  have hlen := congrArg String.length h
  rw [String.length_append, String.length_append] at hlen
  have h1 : ("/" : String).length = 1 := rfl
  have h0 : ("" : String).length = 0 := rfl
  omega

/-- Helper for C10: a listing segment scanned without a match or an
error contributes nothing — the loop just moves on to what follows. -/
theorem searchEntries_append (dirPath : String) (pre l : List FSEntry)
    (hpre : searchEntries dirPath pre = ("", none)) :
    searchEntries dirPath (pre ++ l) = searchEntries dirPath l := by
  induction pre with
  | nil => rfl
  | cons x rest ih =>
      cases x with
      | file name =>
          by_cases hn : name = brookBinFile
          · rw [searchEntries] at hpre
            simp [hn] at hpre
            exact absurd hpre (joined_path_ne_empty dirPath brookBinFile)
          · rw [searchEntries] at hpre
            rw [List.cons_append, searchEntries]
            simp [hn] at hpre ⊢
            exact ih hpre
      | dir n re cs =>
          cases re with
          | some e => rw [searchEntries] at hpre; simp at hpre
          | none =>
              rw [searchEntries] at hpre
              rw [List.cons_append, searchEntries]
              cases hres : searchEntries (dirPath ++ "/" ++ n) cs with
              | mk p err =>
                  rw [hres] at hpre
                  cases err with
                  | some e => simp at hpre
                  | none =>
                      by_cases hp : p = ""
                      · simp [hp] at hpre ⊢
                        exact ih hpre
                      · simp [hp] at hpre

/-- Helper for C10: over a tree in which every directory read succeeds
and no file is named brookBinFile, the search returns empty path and no
error. -/
theorem searchEntries_clean (dirPath : String) (l : List FSEntry)
    (h : entriesOkNoMatch l = true) : searchEntries dirPath l = ("", none) := by
  match l with
  | [] => simp [searchEntries]
  | FSEntry.file name :: rest =>
      rw [entriesOkNoMatch, entryOkNoMatch] at h
      simp only [Bool.and_eq_true, decide_eq_true_eq] at h
      rw [searchEntries, if_neg h.1]
      exact searchEntries_clean dirPath rest h.2
  | FSEntry.dir n re cs :: rest =>
      rw [entriesOkNoMatch, entryOkNoMatch] at h
      simp only [Bool.and_eq_true, Option.isNone_iff_eq_none] at h
      obtain ⟨⟨hre, hcs⟩, hrest⟩ := h
      subst hre
      have hinner := searchEntries_clean (dirPath ++ "/" ++ n) cs hcs
      rw [searchEntries, hinner]
      simp only [ne_eq, not_true_eq_false, if_false, ite_false]
      exact searchEntries_clean dirPath rest hrest

/-- Helper for C10: whenever the search reports an error, the reported
path is the empty string (every error return in the source is the pair
of the empty string and the error). -/
theorem searchEntries_err_empty_path (dirPath : String) (l : List FSEntry)
    (e : String) (h : (searchEntries dirPath l).2 = some e) :
    (searchEntries dirPath l).1 = "" := by
  induction l with
  | nil => simp [searchEntries] at h
  | cons x rest ih =>
      cases x with
      | file name =>
          rw [searchEntries] at h ⊢
          by_cases hn : name = brookBinFile
          · simp [hn] at h
          · simp only [if_neg hn] at h ⊢
            exact ih h
      | dir n re cs =>
          cases re with
          | some e2 => rw [searchEntries]
          | none =>
              rw [searchEntries] at h ⊢
              cases hres : searchEntries (dirPath ++ "/" ++ n) cs with
              | mk p err =>
                  rw [hres] at h
                  cases err with
                  | some e2 => simp
                  | none =>
                      by_cases hp : p = ""
                      · simp only [hp, ne_eq, not_true_eq_false, ite_false, if_false] at h ⊢
                        exact ih h
                      · simp [hp] at h

/-- C10: a failing directory read anywhere the traversal reaches aborts
the whole search, returning that error with an empty path even when a
file with the expected name sits in a later sibling; an error result
always carries an empty path; and a tree with no read failures and no
matching file yields an empty path with no error. -/
theorem C10_searchExecutableFile_error_abort (dirPath n e : String)
    (cs : List FSEntry) (pre post : List FSEntry)
    (hpre : searchEntries dirPath pre = ("", none)) :
    searchExecutableFile dirPath none
        (pre ++ FSEntry.dir n (some e) cs :: post) = ("", some e) ∧
    (∀ entries, entriesOkNoMatch entries = true →
        searchExecutableFile dirPath none entries = ("", none)) ∧
    (∀ readErr entries err,
        (searchExecutableFile dirPath readErr entries).2 = some err →
        (searchExecutableFile dirPath readErr entries).1 = "") := by
  refine ⟨?_, ?_, ?_⟩
  · show searchEntries dirPath (pre ++ FSEntry.dir n (some e) cs :: post) =
      ("", some e)
    rw [searchEntries_append dirPath pre _ hpre]
    rw [searchEntries]
  · intro entries hclean
    exact searchEntries_clean dirPath entries hclean
  · intro readErr entries err herr
    cases readErr with
    | some e2 => rfl
    | none => exact searchEntries_err_empty_path dirPath entries err herr

/-- Witness for C10: a clean non-matching sibling, then a directory
whose read is denied, then a matching brook file that is never reached;
plus a clean no-match tree and a root read failure. -/
theorem C10_searchExecutableFile_error_abort_witness :
    searchExecutableFile "." none
        ([FSEntry.file "README"] ++
          FSEntry.dir "sub" (some "permission denied") [] ::
            [FSEntry.file "brook"]) = ("", some "permission denied") ∧
    searchExecutableFile "." none [FSEntry.file "README"] = ("", none) ∧
    (searchExecutableFile "." (some "permission denied")
        [FSEntry.file "brook"]).1 = "" := by
  have h := C10_searchExecutableFile_error_abort "." "sub" "permission denied" []
      [FSEntry.file "README"] [FSEntry.file "brook"]
      (by simp [searchEntries, brookBinFile])
  exact ⟨h.1,
    h.2.1 [FSEntry.file "README"]
      (by simp [entriesOkNoMatch, entryOkNoMatch, brookBinFile]),
    h.2.2 (some "permission denied") [FSEntry.file "brook"] "permission denied" rfl⟩

end Brooktool
